import Mathlib

/-
Verification development for the LINE chat-bot webhook application
(src/app.py).  The application logic is shallowly embedded: Python
strings become Lean `String`s (manipulated through their character
lists with helpers that mirror Python's `str` methods), the global
`user_states` dict becomes an association list from user id to an
optional pending tag, outbound replies become an inductive `OutMsg`
type, collaborator modules (news, stock, backtest) become function
parameters returning `Except`, and a raised Python exception becomes
the `Except.error` case which the dispatcher's `try/except` catches.
-/

/-- Python `str.strip()`: remove leading and trailing whitespace. -/
def pyStrip (s : String) : String :=
  String.mk (((s.toList.dropWhile Char.isWhitespace).reverse.dropWhile
      Char.isWhitespace).reverse)

/-- Python `str.split(sep)` for a single-character separator: split on every
occurrence, keeping empty pieces (so `"".split(sep) = [""]` and
`",".split(",") = ["", ""]`). -/
def pySplitChar (sep : Char) (s : List Char) : List (List Char) :=
  s.foldr
    (fun c acc =>
      match acc with
      | [] => [[c]]
      | cur :: rest => if c = sep then [] :: cur :: rest else (c :: cur) :: rest)
    [[]]

/-- The keyword parse of `handle_keywords_input` (src/app.py line 132):
`[keyword.strip() for keyword in msg.split(",") if keyword.strip()]`. -/
def parse_keywords (msg : String) : List String :=
  ((pySplitChar ',' msg.toList).map (fun t => pyStrip (String.mk t))).filter
    (fun k => !(k == ""))

/-- Python `sub in s`: substring containment test. -/
def containsSub (pat s : String) : Bool :=
  (List.range (s.toList.length + 1)).any
    (fun i => pat.toList.isPrefixOf (s.toList.drop i))

/-- Python `s.find(sub)`: smallest index where `sub` occurs, `-1` if absent. -/
def findSub (s pat : List Char) : Int :=
  match (List.range (s.length + 1)).find? (fun i => pat.isPrefixOf (s.drop i)) with
  | some i => (i : Int)
  | none => -1

/-- Python `s.rfind(sub)`: largest index where `sub` occurs, `-1` if absent. -/
def rfindSub (s pat : List Char) : Int :=
  match (List.range (s.length + 1)).reverse.find?
      (fun i => pat.isPrefixOf (s.drop i)) with
  | some i => (i : Int)
  | none => -1

/-- Normalisation of one slice bound, as in Python `s[a:b]`: a negative
index counts from the end (clamped below at 0), a non-negative one is
clamped above at the length. -/
def pyBound (len : Nat) (i : Int) : Nat :=
  if i < 0 then ((len : Int) + i).toNat else min i.toNat len

/-- Python slice `s[a:b]` with Python's index normalisation. -/
def pySlice (s : List Char) (a b : Int) : List Char :=
  (s.take (pyBound s.length b)).drop (pyBound s.length a)

/-- Python `content.replace("\\n", "\n")`: left-to-right, non-overlapping
replacement of the two-character sequence backslash-`n` by a newline. -/
def unescapeNewlines : List Char → List Char
  | [] => []
  | [c] => [c]
  | c1 :: c2 :: rest =>
    if c1 = '\\' ∧ c2 = 'n' then '\n' :: unescapeNewlines rest
    else c1 :: unescapeNewlines (c2 :: rest)

/-- The apostrophe character (U+0027). -/
def apos : Char := Char.ofNat 39

/-- One-character string holding the apostrophe. -/
def aposS : String := String.mk [apos]

/-- `format_backtest_result` (src/app.py lines 192-198): stringify the
result, locate the payload between the first occurrence of `text='` and the
last apostrophe, and replace every literal backslash-`n` in that slice by a
real newline. -/
def format_backtest_result (result : String) : String :=
  let result_str := result.toList
  let start := findSub result_str ("text=".toList ++ [apos]) + 6
  let stop := rfindSub result_str [apos]
  let content := pySlice result_str start stop
  String.mk (unescapeNewlines content)

/-- The three pending-state tags stored in `user_states`
(the Python strings `waiting_for_keywords`, `waiting_for_stock`,
`waiting_for_backtest`). -/
inductive PendingTag
  | waiting_for_keywords
  | waiting_for_stock
  | waiting_for_backtest
deriving DecidableEq

/-- The `user_states` dict (src/app.py line 70): user id to stored value.
A stored value is either one of the three tags or Python `None`
(hence `Option PendingTag`); a user may also be absent altogether. -/
def UserStates : Type := List (String × Option PendingTag)

instance : DecidableEq UserStates := by
  unfold UserStates
  exact inferInstance

/-- Dict lookup: `some v` when the key is present with stored value `v`
(`v = none` models Python `None`), `none` when the key is absent. -/
def UserStates.get : UserStates → String → Option (Option PendingTag)
  | [], _ => none
  | (k', v) :: rest, k => if k' = k then some v else UserStates.get rest k

/-- Dict assignment `user_states[k] = v`: overwrite the binding if the key
is present, append it otherwise. -/
def UserStates.set : UserStates → String → Option PendingTag → UserStates
  | [], k, v => [(k, v)]
  | (k', v') :: rest, k, v =>
    if k' = k then (k, v) :: rest else (k', v') :: UserStates.set rest k v

/-- An outbound reply: a text message or one of the opaque template
objects built by the collaborator template constructors. -/
inductive OutMsg
  | text (s : String)
  | buttons1
  | buttons2
  | carousel
deriving DecidableEq

/-- A raised Python exception: the `TypeError` raised when a function is
called with the wrong number of arguments, or an exception raised by a
collaborator call. -/
inductive Err
  | typeError
  | collabError (msg : String)
deriving DecidableEq

/-- The external collaborator modules (news, stock, backtest), treated as
opaque fallible functions. -/
structure Collabs where
  fetch_and_filter_news_message : List String → Nat → Except Err String
  create_stock_message : String → Except Err String
  backtest : String → Except Err String

/-- `handle_regular_message` (src/app.py lines 151-189) as declared, i.e.
given all the parameters its body uses.  Replies are collected in a list;
the `user_states` writes become `UserStates.set`.  The trailing `else`
branch of the Python `elif` chain is absent in the source, so an
unmatched message produces no reply and no state change. -/
def handle_regular_message (store : UserStates) (user_id msg : String) :
    UserStates × List OutMsg :=
  if containsSub "財報" msg then (store, [OutMsg.buttons1])
  else if containsSub "基本股票功能" msg then (store, [OutMsg.buttons1])
  else if containsSub "換股" msg then (store, [OutMsg.buttons2])
  else if containsSub "目錄" msg then (store, [OutMsg.carousel])
  else if containsSub "新聞" msg then
    (UserStates.set store user_id (some PendingTag.waiting_for_keywords),
      [OutMsg.text "請輸入關鍵字，用半形逗號分隔:"])
  else if containsSub "查詢即時開盤價跟收盤價" msg then
    (UserStates.set store user_id (some PendingTag.waiting_for_stock),
      [OutMsg.text "請輸入股票代號:"])
  else if containsSub "回測" msg then
    (UserStates.set store user_id (some PendingTag.waiting_for_backtest),
      [OutMsg.text "請問要回測哪一支,定期定額多少,幾年(請用半形逗號隔開):"])
  else (store, [])

/-- `handle_keywords_input` (src/app.py lines 131-149) as declared.  The
first result component is the list of replies sent; the second records
every call made to the news collaborator as a pair (keywords, limit).
The body never touches `user_states`. -/
def handle_keywords_input (c : Collabs) (msg : String) :
    Except Err (List OutMsg × List (List String × Nat)) :=
  let keywords := parse_keywords msg
  if keywords ≠ [] then
    match c.fetch_and_filter_news_message keywords 10 with
    | Except.error e => Except.error e
    | Except.ok m => Except.ok ([OutMsg.text m], [(keywords, 10)])
  else
    Except.ok ([OutMsg.text "請輸入有效的關鍵字，用逗號分隔:"], [])

/-- The body of the `try:` block of `handle_message` (src/app.py lines
102-122), acting on the stripped message.  The first and last branches
call `handle_keywords_input` resp. `handle_regular_message` with three
arguments although those functions declare four parameters
(`line_bot_api, event, msg, user_id`), so in Python the call itself
raises `TypeError` before either body runs: those branches reduce to a
raised exception. -/
def handle_message_try (c : Collabs) (store : UserStates)
    (user_id msg : String) : Except Err (UserStates × List OutMsg) :=
  if UserStates.get store user_id = some (some PendingTag.waiting_for_keywords) then
    Except.error Err.typeError
  else if UserStates.get store user_id = some (some PendingTag.waiting_for_stock) then
    match c.create_stock_message msg with
    | Except.error e => Except.error e
    | Except.ok result2 => Except.ok (UserStates.set store user_id none, [OutMsg.text result2])
  else if UserStates.get store user_id = some (some PendingTag.waiting_for_backtest) then
    match c.backtest msg with
    | Except.error e => Except.error e
    | Except.ok result1 =>
      Except.ok (UserStates.set store user_id none,
        [OutMsg.text (format_backtest_result result1)])
  else
    Except.error Err.typeError

/-- Observable outcome of one `handle_message` invocation: the final
`user_states`, the replies sent, and the errors logged by
`logging.error`. -/
structure HMResult where
  store : UserStates
  replies : List OutMsg
  logs : List Err
deriving DecidableEq

/-- `handle_message` (src/app.py lines 96-129): strip the text, run the
`try:` body, and on any raised exception log it, reply with the generic
failure text and set the user's `user_states` entry to `None`. -/
def handle_message (c : Collabs) (store : UserStates)
    (user_id rawText : String) : HMResult :=
  let msg := pyStrip rawText
  match handle_message_try c store user_id msg with
  | Except.ok (st, rs) => ⟨st, rs, []⟩
  | Except.error e =>
    ⟨UserStates.set store user_id none, [OutMsg.text "發生錯誤，請稍後再試。"], [e]⟩

/-- The exception raised by the SDK's `handler.handle` on a bad webhook
signature. -/
inductive SigError
  | invalidSignature

/-- A parsed inbound text-message event: the sending user and the text. -/
structure LineEvent where
  user_id : String
  text : String

/-- `callback` (src/app.py lines 77-93).  Signature verification and event
parsing are delegated to the SDK, modelled by the `Except SigError
LineEvent` argument: on `InvalidSignatureError` the route aborts with
HTTP 400 and nothing is dispatched; otherwise the event is dispatched to
`handle_message` and the route returns HTTP 200 with body `OK`. -/
def callback (c : Collabs) (store : UserStates)
    (parsed : Except SigError LineEvent) : (Nat × String) × HMResult :=
  match parsed with
  | Except.error _ => ((400, ""), ⟨store, [], []⟩)
  | Except.ok ev => ((200, "OK"), handle_message c store ev.user_id ev.text)

/-- Disjunction of all seven command triggers of
`handle_regular_message`. -/
def matchesSomeTrigger (msg : String) : Bool :=
  containsSub "財報" msg || containsSub "基本股票功能" msg ||
  containsSub "換股" msg || containsSub "目錄" msg ||
  containsSub "新聞" msg || containsSub "查詢即時開盤價跟收盤價" msg ||
  containsSub "回測" msg

/-- Concrete collaborators whose calls all succeed, for evaluating the
dispatcher on concrete inputs. -/
def demoCollabs : Collabs where
  fetch_and_filter_news_message := fun _ _ => Except.ok "NEWS"
  create_stock_message := fun s => Except.ok (String.append "STOCK:" s)
  backtest := fun s => Except.ok s

/-- Concrete collaborators whose calls all raise, for evaluating the
failure paths of the dispatcher. -/
def failingCollabs : Collabs where
  fetch_and_filter_news_message := fun _ _ => Except.error (Err.collabError "news down")
  create_stock_message := fun _ => Except.error (Err.collabError "stock down")
  backtest := fun _ => Except.error (Err.collabError "backtest down")

/-
Helper lemmas shared by the claim theorems below.
-/

/-- Looking up a key right after assigning it returns the assigned value. -/
theorem UserStates.get_set_self (st : UserStates) (k : String) (v : Option PendingTag) :
    UserStates.get (UserStates.set st k v) k = some v := by
  induction st with
  | nil => simp [UserStates.set, UserStates.get]
  | cons p rest ih =>
    obtain ⟨k', v'⟩ := p
    by_cases h : k' = k <;> simp [UserStates.set, UserStates.get, h, ih]

/-- Every successful branch of the `try:` body ends with
`user_states[user_id] = None`. -/
theorem handle_message_try_ok_store (c : Collabs) (store : UserStates)
    (uid m : String) (st : UserStates) (rs : List OutMsg)
    (h : handle_message_try c store uid m = Except.ok (st, rs)) :
    st = UserStates.set store uid none := by
  unfold handle_message_try at h
  repeat' split at h
  all_goals simp_all

/-- After any `handle_message` invocation the final `user_states` is the
initial one with the sender's entry assigned `None`: every path, success
or caught exception, performs exactly that one store mutation. -/
theorem handle_message_store_after (c : Collabs) (store : UserStates)
    (uid raw : String) :
    (handle_message c store uid raw).store = UserStates.set store uid none := by
  simp only [handle_message]
  rcases h : handle_message_try c store uid (pyStrip raw) with e | ⟨st, rs⟩
  · simp
  · exact handle_message_try_ok_store c store uid (pyStrip raw) st rs h

/-- When the sender's stored state is absent, `None`, or
`waiting_for_keywords`, the dispatcher calls a four-parameter handler with
three arguments, the call raises `TypeError`, and the `except` branch
replies with the generic failure text, logs the error and assigns `None`. -/
theorem handle_message_error_eval (c : Collabs) (store : UserStates)
    (uid raw : String)
    (h : UserStates.get store uid = none ∨ UserStates.get store uid = some none ∨
      UserStates.get store uid = some (some PendingTag.waiting_for_keywords)) :
    handle_message c store uid raw =
      ⟨UserStates.set store uid none, [OutMsg.text "發生錯誤，請稍後再試。"], [Err.typeError]⟩ := by
  have htry : handle_message_try c store uid (pyStrip raw) = Except.error Err.typeError := by
    unfold handle_message_try
    rcases h with h | h | h <;> simp [h]
  simp [handle_message, htry]

/-- When a reachable collaborator call (stock or backtest) raises, the
`except` branch replies with the generic failure text, logs the raised
error and assigns `None` to the sender's entry. -/
theorem handle_message_collab_error (c : Collabs) (store : UserStates)
    (uid raw : String) (e : Err)
    (h : (UserStates.get store uid = some (some PendingTag.waiting_for_stock) ∧
        c.create_stock_message (pyStrip raw) = Except.error e) ∨
      (UserStates.get store uid = some (some PendingTag.waiting_for_backtest) ∧
        c.backtest (pyStrip raw) = Except.error e)) :
    handle_message c store uid raw =
      ⟨UserStates.set store uid none, [OutMsg.text "發生錯誤，請稍後再試。"], [e]⟩ := by
  have htry : handle_message_try c store uid (pyStrip raw) = Except.error e := by
    unfold handle_message_try
    rcases h with ⟨h1, h2⟩ | ⟨h1, h2⟩ <;> simp [h1, h2]
  simp [handle_message, htry]

/-- A message containing none of the seven triggers falls off the end of
the `elif` chain of `handle_regular_message`: no reply, no state change. -/
theorem handle_regular_message_no_trigger (store : UserStates) (uid msg : String)
    (h : matchesSomeTrigger msg = false) :
    handle_regular_message store uid msg = (store, []) := by
  unfold matchesSomeTrigger at h
  simp only [Bool.or_eq_false_iff] at h
  obtain ⟨⟨⟨⟨⟨⟨h1, h2⟩, h3⟩, h4⟩, h5⟩, h6⟩, h7⟩ := h
  simp [handle_regular_message, h1, h2, h3, h4, h5, h6, h7]

/-- The replacement step touches nothing in a backslash-free string. -/
theorem unescapeNewlines_no_backslash :
    ∀ cs : List Char, '\\' ∉ cs → unescapeNewlines cs = cs
  | [], _ => rfl
  | [_], _ => rfl
  | c1 :: c2 :: rest, h => by
    have hc1 : ¬(c1 = '\\' ∧ c2 = 'n') := by
      rintro ⟨h1, _⟩
      exact h (by simp [h1])
    have hrest : '\\' ∉ c2 :: rest := by
      intro hm
      exact h (List.mem_cons_of_mem c1 hm)
    simp only [unescapeNewlines, if_neg hc1]
    exact congrArg _ (unescapeNewlines_no_backslash (c2 :: rest) hrest)

/-
Claim theorems.
-/

/-- C1: the claim says a trigger message from a user with no pending state
executes the corresponding action (carousel for 目錄, prompt plus
`waiting_for_keywords` for 新聞, ...).  The command table in
`handle_regular_message` does behave that way, but the dispatcher calls
`handle_regular_message` with three arguments against four declared
parameters, so on the actual code every such message raises `TypeError`:
the user gets the generic failure reply and the state entry is set to
`None` (changing the store even for non-flow triggers).  This theorem
evaluates both the intended command table and the actual dispatcher at
the failing inputs. -/
theorem C1_trigger_dispatch_eval :
    handle_regular_message [] "u" "目錄" = ([], [OutMsg.carousel]) ∧
    handle_regular_message [] "u" "新聞" =
      ([("u", some PendingTag.waiting_for_keywords)],
        [OutMsg.text "請輸入關鍵字，用半形逗號分隔:"]) ∧
    handle_message demoCollabs [] "u" "目錄" =
      ⟨[("u", none)], [OutMsg.text "發生錯誤，請稍後再試。"], [Err.typeError]⟩ ∧
    handle_message demoCollabs [] "u" "新聞" =
      ⟨[("u", none)], [OutMsg.text "發生錯誤，請稍後再試。"], [Err.typeError]⟩ := by
  refine ⟨by decide, by decide, by decide, by decide⟩

/-- C2: after `handle_message` processes a message from a user with any of
the three pending tags — the keywords path raises `TypeError`, the stock and
backtest paths either succeed or re-raise the collaborator's exception —
the user's stored state is `None` (Idle), so no pending branch of the
dispatcher can fire on the next message. -/
theorem C2_pending_cleared (c : Collabs) (store : UserStates)
    (uid raw : String) (t : PendingTag)
    (h : UserStates.get store uid = some (some t)) :
    UserStates.get (handle_message c store uid raw).store uid = some none ∧
    ∀ t2 : PendingTag,
      UserStates.get (handle_message c store uid raw).store uid ≠ some (some t2) := by
  rw [handle_message_store_after c store uid raw, UserStates.get_set_self]
  simp

/-- C2 witness: a user pending on `waiting_for_stock` is Idle after the
next message. -/
theorem C2_pending_cleared_witness :
    UserStates.get
        (handle_message demoCollabs [("u", some PendingTag.waiting_for_stock)] "u" "2330").store
        "u" = some none ∧
    ∀ t2 : PendingTag,
      UserStates.get
          (handle_message demoCollabs [("u", some PendingTag.waiting_for_stock)] "u" "2330").store
          "u" ≠ some (some t2) := by
  exact C2_pending_cleared demoCollabs [("u", some PendingTag.waiting_for_stock)]
    "u" "2330" PendingTag.waiting_for_stock (by decide)

/-- C3: the claim says `"a, b ,,c"` from a `waiting_for_keywords` user is
parsed to `["a","b","c"]` and passed to the news collaborator with limit
10.  The parse inside `handle_keywords_input` does compute exactly that
and calls the collaborator with limit 10 — but the dispatcher calls
`handle_keywords_input` with three arguments against four declared
parameters, so on the actual code the user gets the generic failure reply
and the news collaborator is never invoked. -/
theorem C3_keywords_input_eval :
    parse_keywords "a, b ,,c" = ["a", "b", "c"] ∧
    handle_keywords_input demoCollabs "a, b ,,c" =
      Except.ok ([OutMsg.text "NEWS"], [(["a", "b", "c"], 10)]) ∧
    handle_message demoCollabs [("u", some PendingTag.waiting_for_keywords)] "u" "a, b ,,c" =
      ⟨[("u", none)], [OutMsg.text "發生錯誤，請稍後再試。"], [Err.typeError]⟩ := by
  refine ⟨by decide, rfl, by decide⟩

/-- C4: the claim says an empty parsed keyword list yields the validation
reply, no news call, and an unchanged pending state.  The body of
`handle_keywords_input` does exactly that (validation reply, no
collaborator call, no `user_states` access) — but on the actual code the
dispatcher's three-argument call raises `TypeError` first, so the user
gets the generic failure reply instead and the pending entry is cleared
to `None` rather than left as `waiting_for_keywords`. -/
theorem C4_empty_keywords_eval :
    parse_keywords "" = [] ∧ parse_keywords "," = [] ∧
    handle_keywords_input demoCollabs "" =
      Except.ok ([OutMsg.text "請輸入有效的關鍵字，用逗號分隔:"], []) ∧
    handle_keywords_input demoCollabs "," =
      Except.ok ([OutMsg.text "請輸入有效的關鍵字，用逗號分隔:"], []) ∧
    handle_message demoCollabs [("u", some PendingTag.waiting_for_keywords)] "u" "," =
      ⟨[("u", none)], [OutMsg.text "發生錯誤，請稍後再試。"], [Err.typeError]⟩ := by
  refine ⟨by decide, by decide, rfl, rfl, by decide⟩

/-- C5 counterexample: the formatter is not idempotent.  On the stringified
backtest result `(text='line1\nline2')` (with a literal backslash-n) it
correctly yields the two lines, but re-applying it to that bare output —
which no longer contains the `text='` marker — misfinds the slice bounds
(`find` returns -1, so the slice starts at 5 and ends at the last
character) and returns a corrupted fragment instead of the input. -/
theorem C5_formatter_not_idempotent :
    format_backtest_result
        (format_backtest_result ("(text=" ++ aposS ++ "line1\\nline2" ++ aposS ++ ")")) ≠
      format_backtest_result ("(text=" ++ aposS ++ "line1\\nline2" ++ aposS ++ ")") := by
  decide

/-- C5 amended: given the stringified result wrapping the payload as
`text='...'`, the formatter extracts the payload between the first
`text='` and the last apostrophe and replaces each literal backslash-n
there by a real line break — mapping the payload `line1\nline2` to
`line1`, line break, `line2` — and the replacement step alters no
character of a backslash-free payload.  Idempotence fails (see the
counterexample): the formatter's own output lacks the `text='` wrapper,
so a second application corrupts it. -/
theorem C5_formatter_unescapes :
    format_backtest_result ("(text=" ++ aposS ++ "line1\\nline2" ++ aposS ++ ")") =
      "line1\nline2" ∧
    ∀ cs : List Char, '\\' ∉ cs → unescapeNewlines cs = cs := by
  exact ⟨by decide, unescapeNewlines_no_backslash⟩

/-- C5 witness: the replacement step leaves a concrete backslash-free
payload unchanged. -/
theorem C5_formatter_unescapes_witness :
    unescapeNewlines ['a', 'b'] = ['a', 'b'] := by
  exact C5_formatter_unescapes.2 ['a', 'b'] (by decide)

/-- C6: when a reachable collaborator call (stock lookup or backtest)
raises, the exception is caught by the single `try/except` in
`handle_message`: exactly one reply is sent and it carries the generic
failure text, the caught exception is logged, and the user's pending
entry is set to `None`.  Nothing propagates: `handle_message` is total. -/
theorem C6_collab_failure_caught (c : Collabs) (store : UserStates)
    (uid raw : String) (e : Err)
    (h : (UserStates.get store uid = some (some PendingTag.waiting_for_stock) ∧
        c.create_stock_message (pyStrip raw) = Except.error e) ∨
      (UserStates.get store uid = some (some PendingTag.waiting_for_backtest) ∧
        c.backtest (pyStrip raw) = Except.error e)) :
    handle_message c store uid raw =
      ⟨UserStates.set store uid none, [OutMsg.text "發生錯誤，請稍後再試。"], [e]⟩ ∧
    (handle_message c store uid raw).replies.length = 1 := by
  have he := handle_message_collab_error c store uid raw e h
  rw [he]
  exact ⟨rfl, rfl⟩

/-- C6 witness: a failing stock collaborator leads to the generic failure
reply, a cleared state entry and a logged error. -/
theorem C6_collab_failure_caught_witness :
    handle_message failingCollabs [("u", some PendingTag.waiting_for_stock)] "u" "2330" =
      ⟨[("u", none)], [OutMsg.text "發生錯誤，請稍後再試。"], [Err.collabError "stock down"]⟩ ∧
    (handle_message failingCollabs [("u", some PendingTag.waiting_for_stock)] "u" "2330").replies.length = 1 := by
  exact C6_collab_failure_caught failingCollabs [("u", some PendingTag.waiting_for_stock)]
    "u" "2330" (Err.collabError "stock down") (Or.inl ⟨by decide, rfl⟩)

/-- C7 counterexample: the claim says an unmatched command message still
gets exactly one reply, a default menu hint, from the command router.
`handle_regular_message` (the cited router) has no trailing `else` that
replies: on the unmatched message `"hello"` it sends zero replies. -/
theorem C7_router_silent_on_unmatched :
    handle_regular_message [] "u" "hello" = ([], []) ∧
    (handle_regular_message [] "u" "hello").2.length ≠ 1 := by
  refine ⟨by decide, by decide⟩

/-- C7 amended: on the actual code an unmatched command message from a
user with no pending state does get exactly one reply, but it is the
generic failure text produced by the `except` branch after the
dispatcher's three-argument call to `handle_regular_message` raises
`TypeError` — not a default menu hint; the router itself, given its
declared arguments, replies zero times for such a message. -/
theorem C7_unmatched_one_reply (c : Collabs) (store : UserStates)
    (uid raw : String)
    (hidle : UserStates.get store uid = none ∨ UserStates.get store uid = some none)
    (htrig : matchesSomeTrigger (pyStrip raw) = false) :
    (handle_message c store uid raw).replies = [OutMsg.text "發生錯誤，請稍後再試。"] ∧
    (handle_message c store uid raw).replies.length = 1 ∧
    handle_regular_message store uid (pyStrip raw) = (store, []) := by
  have he := handle_message_error_eval c store uid raw (hidle.elim Or.inl (fun h2 => Or.inr (Or.inl h2)))
  rw [he]
  exact ⟨rfl, rfl, handle_regular_message_no_trigger store uid (pyStrip raw) htrig⟩

/-- C7 witness: the unmatched message `"hello"` from an absent user. -/
theorem C7_unmatched_one_reply_witness :
    (handle_message demoCollabs [] "u" "hello").replies =
      [OutMsg.text "發生錯誤，請稍後再試。"] ∧
    (handle_message demoCollabs [] "u" "hello").replies.length = 1 ∧
    handle_regular_message [] "u" (pyStrip "hello") = ([], []) := by
  exact C7_unmatched_one_reply demoCollabs [] "u" "hello" (Or.inl rfl) (by decide)

/-- C8: `callback` with a failed signature verification (the SDK raises
`InvalidSignatureError`) aborts with HTTP 400 and dispatches nothing, so
no reply is sent; with successful verification it returns HTTP 200 with
body `OK` after dispatching the parsed event to `handle_message`. -/
theorem C8_callback_status :
    ∀ (c : Collabs) (store : UserStates),
      (∀ e : SigError,
        callback c store (Except.error e) = ((400, ""), ⟨store, [], []⟩)) ∧
      (∀ ev : LineEvent,
        callback c store (Except.ok ev) =
          ((200, "OK"), handle_message c store ev.user_id ev.text)) := by
  intro c store
  exact ⟨fun e => rfl, fun ev => rfl⟩

/-- C9: whenever the sender's stored state is absent, `None`, or
`waiting_for_keywords`, the dispatcher invokes `handle_regular_message`
resp. `handle_keywords_input` with three arguments although they declare
four parameters, so the call raises `TypeError`; the top-level `except`
replies with the generic error text, logs the error and sets the user's
state entry to `None` — and no command action or keyword handling runs:
the whole observable outcome is exactly that one failure reply. -/
theorem C9_arity_type_error (c : Collabs) (store : UserStates)
    (uid raw : String)
    (h : UserStates.get store uid = none ∨ UserStates.get store uid = some none ∨
      UserStates.get store uid = some (some PendingTag.waiting_for_keywords)) :
    handle_message c store uid raw =
      ⟨UserStates.set store uid none, [OutMsg.text "發生錯誤，請稍後再試。"], [Err.typeError]⟩ := by
  exact handle_message_error_eval c store uid raw h

/-- C9 witness: a `waiting_for_keywords` user sending keywords hits the
`TypeError` path. -/
theorem C9_arity_type_error_witness :
    handle_message demoCollabs [("u", some PendingTag.waiting_for_keywords)] "u" "tesla" =
      ⟨[("u", none)], [OutMsg.text "發生錯誤，請稍後再試。"], [Err.typeError]⟩ := by
  exact C9_arity_type_error demoCollabs [("u", some PendingTag.waiting_for_keywords)]
    "u" "tesla" (Or.inr (Or.inr (by decide)))

/-- C10: clearing never removes a key — every path of `handle_message`
ends by assigning `None` to the sender's entry (creating it when absent),
after which the key is still present and maps to `None`; and the
dispatcher treats a `None`-valued entry exactly like an absent key: both
route to the command path and yield identical observable results. -/
theorem C10_clear_keeps_key :
    (∀ (c : Collabs) (store : UserStates) (uid raw : String),
      (handle_message c store uid raw).store = UserStates.set store uid none) ∧
    (∀ (store : UserStates) (uid : String),
      UserStates.get (UserStates.set store uid none) uid = some none) ∧
    (∀ (c : Collabs) (store : UserStates) (uid raw : String),
      UserStates.get store uid = none ∨ UserStates.get store uid = some none →
      handle_message c store uid raw =
        ⟨UserStates.set store uid none, [OutMsg.text "發生錯誤，請稍後再試。"],
          [Err.typeError]⟩) := by
  refine ⟨handle_message_store_after, ?_, ?_⟩
  · intro store uid
    exact UserStates.get_set_self store uid none
  · intro c store uid raw h
    exact handle_message_error_eval c store uid raw (h.elim Or.inl (fun h2 => Or.inr (Or.inl h2)))

/-- C10 witness: a user whose entry holds `None` is routed exactly like an
absent user, and the entry survives as `None`. -/
theorem C10_clear_keeps_key_witness :
    handle_message demoCollabs [("u", none)] "u" "目錄" =
      ⟨[("u", none)], [OutMsg.text "發生錯誤，請稍後再試。"], [Err.typeError]⟩ := by
  exact C10_clear_keeps_key.2.2 demoCollabs [("u", none)] "u" "目錄" (Or.inr (by decide))
